import Mathlib

/-!
Verification development for the TuriX-CUA structured action protocol and
input synthesis engine.

The embedding covers:
* the decode layer of `src/agent/structured_llm.py` (the `ActionItem`
  pydantic model and its `fix_empty_string` validator for the `wait` field);
* the macOS input synthesizer of `src/mac/actions.py` (coordinate
  resolution, click, move, drag, scroll), modelled as pure functions that
  return the ordered trace of emitted events.  Python floats are modelled
  as rationals; the wall clock read by `time.time_ns` is modelled as an
  idealized clock that advances by exactly the duration of each sleep.
-/

namespace TuriX

/-! ### JSON-like values (the raw structured payload fed to pydantic) -/

/-- A JSON-like value, as handed to pydantic model validation. -/
inductive JVal where
  | null : JVal
  | str (s : String) : JVal
  | num (q : ℚ) : JVal
  | arr (xs : List JVal) : JVal
  | obj (fields : List (String × JVal)) : JVal

def JVal.asStr : JVal → Option String
  | .str s => some s
  | _ => none

def JVal.asNum : JVal → Option ℚ
  | .num q => some q
  | _ => none

def JVal.asNumList : JVal → Option (List ℚ)
  | .arr xs => xs.mapM JVal.asNum
  | _ => none

def JVal.getField : JVal → String → Option JVal
  | .obj fs, k => fs.lookup k
  | _, _ => none

/-- A required string field of an object: must be present and a string. -/
def requiredStr (v : JVal) (k : String) : Option String :=
  (v.getField k).bind JVal.asStr

/-- A required number-list field of an object (a position). -/
def requiredNumList (v : JVal) (k : String) : Option (List ℚ) :=
  (v.getField k).bind JVal.asNumList

/-- An optional number field: absent or null decodes to `none`. -/
def optionalNum (v : JVal) (k : String) : Option (Option ℚ) :=
  match v.getField k with
  | none => some none
  | some JVal.null => some none
  | some u => Option.map some u.asNum

/-- An optional string field: absent or null decodes to `none`. -/
def optionalStr (v : JVal) (k : String) : Option (Option String) :=
  match v.getField k with
  | none => some none
  | some JVal.null => some none
  | some u => Option.map some u.asStr

/-! ### Per-kind action payloads

Modelled from the spec: the payload classes live in
`src/controller/views.py`, which is not under `src/`; their field
shapes are taken from the JSON action schema in
`src/agent/output_schemas.py` (which is under `src/`) and from spec
section 4.1. -/

/-- Modelled from the spec: `NoParamsAction` (in the missing
`src/controller/views.py`); kinds `done` and `wait` take no parameters,
so any JSON object validates (pydantic ignores unknown keys). -/
inductive NoParamsAction where
  | mk
deriving DecidableEq

/-- Modelled from the spec: `InputTextAction`, required field `text`. -/
structure InputTextAction where
  text : String
deriving DecidableEq

/-- Modelled from the spec: `OpenAppAction`, required field `app_name`. -/
structure OpenAppAction where
  app_name : String
deriving DecidableEq

/-- Modelled from the spec: `AppleScriptAction`, required field `script`. -/
structure AppleScriptAction where
  script : String
deriving DecidableEq

/-- Modelled from the spec: `PressAction`, required field `key`. -/
structure PressAction where
  key : String
deriving DecidableEq

/-- Modelled from the spec: `PressCombinedAction`, required `key1`, `key2`
and optional `key3`. -/
structure PressCombinedAction where
  key1 : String
  key2 : String
  key3 : Option String
deriving DecidableEq

/-- Modelled from the spec: `RightClickPixel`, required field `position`. -/
structure RightClickPixel where
  position : List ℚ
deriving DecidableEq

/-- Modelled from the spec: `LeftClickPixel`, required field `position`. -/
structure LeftClickPixel where
  position : List ℚ
deriving DecidableEq

/-- Modelled from the spec: `DragAction`, required `position1`, `position2`. -/
structure DragAction where
  position1 : List ℚ
  position2 : List ℚ
deriving DecidableEq

/-- Modelled from the spec: `MoveToAction`, required field `position`. -/
structure MoveToAction where
  position : List ℚ
deriving DecidableEq

/-- Modelled from the spec: `ScrollUpAction`, required `position`,
optional delta hints `dx`, `dy` (unused by the executor). -/
structure ScrollUpAction where
  position : List ℚ
  dx : Option ℚ
  dy : Option ℚ
deriving DecidableEq

/-- Modelled from the spec: `ScrollDownAction`, required `position`,
optional delta hints `dx`, `dy` (unused by the executor). -/
structure ScrollDownAction where
  position : List ℚ
  dx : Option ℚ
  dy : Option ℚ
deriving DecidableEq

/-- Modelled from the spec: `RecordAction`, required `text`, `file_name`. -/
structure RecordAction where
  text : String
  file_name : String
deriving DecidableEq

def decodeNoParams : JVal → Option NoParamsAction
  | .obj _ => some NoParamsAction.mk
  | _ => none

def decodeInputText (v : JVal) : Option InputTextAction :=
  (requiredStr v "text").map InputTextAction.mk

def decodeOpenApp (v : JVal) : Option OpenAppAction :=
  (requiredStr v "app_name").map OpenAppAction.mk

def decodeAppleScript (v : JVal) : Option AppleScriptAction :=
  (requiredStr v "script").map AppleScriptAction.mk

def decodePress (v : JVal) : Option PressAction :=
  (requiredStr v "key").map PressAction.mk

def decodePressCombined (v : JVal) : Option PressCombinedAction := do
  let k1 ← requiredStr v "key1"
  let k2 ← requiredStr v "key2"
  let k3 ← optionalStr v "key3"
  pure ⟨k1, k2, k3⟩

def decodeRightClickPixel (v : JVal) : Option RightClickPixel :=
  (requiredNumList v "position").map RightClickPixel.mk

def decodeLeftClickPixel (v : JVal) : Option LeftClickPixel :=
  (requiredNumList v "position").map LeftClickPixel.mk

def decodeDrag (v : JVal) : Option DragAction := do
  let p1 ← requiredNumList v "position1"
  let p2 ← requiredNumList v "position2"
  pure ⟨p1, p2⟩

def decodeMoveTo (v : JVal) : Option MoveToAction :=
  (requiredNumList v "position").map MoveToAction.mk

def decodeScrollUp (v : JVal) : Option ScrollUpAction := do
  let p ← requiredNumList v "position"
  let dx ← optionalNum v "dx"
  let dy ← optionalNum v "dy"
  pure ⟨p, dx, dy⟩

def decodeScrollDown (v : JVal) : Option ScrollDownAction := do
  let p ← requiredNumList v "position"
  let dx ← optionalNum v "dx"
  let dy ← optionalNum v "dy"
  pure ⟨p, dx, dy⟩

def decodeRecord (v : JVal) : Option RecordAction := do
  let t ← requiredStr v "text"
  let f ← requiredStr v "file_name"
  pure ⟨t, f⟩

/-! ### The ActionItem model (src/agent/structured_llm.py, lines 9-38) -/

/-- The typed `ActionItem`: fourteen optional kind fields, mirroring the
pydantic model field-for-field.  Note the source declares no validator
relating the fields to each other. -/
structure ActionItem where
  done : Option NoParamsAction := none
  input_text : Option InputTextAction := none
  open_app : Option OpenAppAction := none
  run_apple_script : Option AppleScriptAction := none
  Hotkey : Option PressAction := none
  multi_Hotkey : Option PressCombinedAction := none
  RightSingle : Option RightClickPixel := none
  Click : Option LeftClickPixel := none
  Drag : Option DragAction := none
  move_mouse : Option MoveToAction := none
  scroll_up : Option ScrollUpAction := none
  scroll_down : Option ScrollDownAction := none
  record_info : Option RecordAction := none
  wait : Option NoParamsAction := none
deriving DecidableEq

/-- A raw batch entry: for each declared field of `ActionItem`, either the
key is absent (`none`) or it is present with a JSON value. Unknown extra
keys are ignored by pydantic and hence not modelled. -/
structure RawActionItem where
  done : Option JVal := none
  input_text : Option JVal := none
  open_app : Option JVal := none
  run_apple_script : Option JVal := none
  Hotkey : Option JVal := none
  multi_Hotkey : Option JVal := none
  RightSingle : Option JVal := none
  Click : Option JVal := none
  Drag : Option JVal := none
  move_mouse : Option JVal := none
  scroll_up : Option JVal := none
  scroll_down : Option JVal := none
  record_info : Option JVal := none
  wait : Option JVal := none

/-- Decoding of one `Optional[X]` pydantic field: an absent key or an
explicit null yields `none`; any other provided value must decode as `X`. -/
def decodeOptField {α : Type} (dec : JVal → Option α) : Option JVal → Option (Option α)
  | none => some none
  | some JVal.null => some none
  | some v => Option.map some (dec v)

/-- The `fix_empty_string` before-validator on the `wait` field
(structured_llm.py lines 32-38): empty string, `None`, and any non-dict
become the empty object; a dict passes through unchanged. -/
def waitFix : JVal → JVal
  | .obj fs => .obj fs
  | _ => .obj []

/-- Decoding of the `wait` field: the before-validator runs on any
provided value (including an explicit null), so a provided `wait` key
always yields a populated `NoParamsAction`. An absent key defaults to
`none` (before-validators do not run on defaults). -/
def decodeWaitField : Option JVal → Option (Option NoParamsAction)
  | none => some none
  | some v => Option.map some (decodeNoParams (waitFix v))

/-- Validation of a raw entry into an `ActionItem`, mirroring pydantic:
each provided field is validated independently; there is no cross-field
check. `none` is a validation failure of some field. -/
def decodeActionItem (r : RawActionItem) : Option ActionItem := do
  let fDone ← decodeOptField decodeNoParams r.done
  let fInputText ← decodeOptField decodeInputText r.input_text
  let fOpenApp ← decodeOptField decodeOpenApp r.open_app
  let fScript ← decodeOptField decodeAppleScript r.run_apple_script
  let fHotkey ← decodeOptField decodePress r.Hotkey
  let fMultiHotkey ← decodeOptField decodePressCombined r.multi_Hotkey
  let fRightSingle ← decodeOptField decodeRightClickPixel r.RightSingle
  let fClick ← decodeOptField decodeLeftClickPixel r.Click
  let fDrag ← decodeOptField decodeDrag r.Drag
  let fMoveMouse ← decodeOptField decodeMoveTo r.move_mouse
  let fScrollUp ← decodeOptField decodeScrollUp r.scroll_up
  let fScrollDown ← decodeOptField decodeScrollDown r.scroll_down
  let fRecordInfo ← decodeOptField decodeRecord r.record_info
  let fWait ← decodeWaitField r.wait
  pure ⟨fDone, fInputText, fOpenApp, fScript, fHotkey, fMultiHotkey,
        fRightSingle, fClick, fDrag, fMoveMouse, fScrollUp, fScrollDown,
        fRecordInfo, fWait⟩

/-- Number of populated (non-`None`) kind fields of an `ActionItem`. -/
def ActionItem.populatedCount (a : ActionItem) : ℕ :=
  ([a.done.isSome, a.input_text.isSome, a.open_app.isSome,
    a.run_apple_script.isSome, a.Hotkey.isSome, a.multi_Hotkey.isSome,
    a.RightSingle.isSome, a.Click.isSome, a.Drag.isSome,
    a.move_mouse.isSome, a.scroll_up.isSome, a.scroll_down.isSome,
    a.record_info.isSome, a.wait.isSome].count true)

/-! ### Canonical serialization (model_dump with exclude_none) -/

def encodeNoParams (_ : NoParamsAction) : JVal := .obj []

def encodeInputText (a : InputTextAction) : JVal :=
  .obj [("text", .str a.text)]

def encodeOpenApp (a : OpenAppAction) : JVal :=
  .obj [("app_name", .str a.app_name)]

def encodeAppleScript (a : AppleScriptAction) : JVal :=
  .obj [("script", .str a.script)]

def encodePress (a : PressAction) : JVal :=
  .obj [("key", .str a.key)]

def optionalStrKV (k : String) : Option String → List (String × JVal)
  | none => []
  | some s => [(k, .str s)]

def optionalNumKV (k : String) : Option ℚ → List (String × JVal)
  | none => []
  | some q => [(k, .num q)]

def encodePressCombined (a : PressCombinedAction) : JVal :=
  .obj ([("key1", .str a.key1), ("key2", .str a.key2)] ++ optionalStrKV "key3" a.key3)

def encodePosList (p : List ℚ) : JVal := .arr (p.map JVal.num)

def encodeRightClickPixel (a : RightClickPixel) : JVal :=
  .obj [("position", encodePosList a.position)]

def encodeLeftClickPixel (a : LeftClickPixel) : JVal :=
  .obj [("position", encodePosList a.position)]

def encodeDrag (a : DragAction) : JVal :=
  .obj [("position1", encodePosList a.position1), ("position2", encodePosList a.position2)]

def encodeMoveTo (a : MoveToAction) : JVal :=
  .obj [("position", encodePosList a.position)]

def encodeScrollUp (a : ScrollUpAction) : JVal :=
  .obj ([("position", encodePosList a.position)]
    ++ optionalNumKV "dx" a.dx ++ optionalNumKV "dy" a.dy)

def encodeScrollDown (a : ScrollDownAction) : JVal :=
  .obj ([("position", encodePosList a.position)]
    ++ optionalNumKV "dx" a.dx ++ optionalNumKV "dy" a.dy)

def encodeRecord (a : RecordAction) : JVal :=
  .obj [("text", .str a.text), ("file_name", .str a.file_name)]

/-- Canonical serialized form of an `ActionItem`
(`model_dump(exclude_none=True)`): unpopulated fields are omitted. -/
def serializeActionItem (a : ActionItem) : RawActionItem where
  done := a.done.map encodeNoParams
  input_text := a.input_text.map encodeInputText
  open_app := a.open_app.map encodeOpenApp
  run_apple_script := a.run_apple_script.map encodeAppleScript
  Hotkey := a.Hotkey.map encodePress
  multi_Hotkey := a.multi_Hotkey.map encodePressCombined
  RightSingle := a.RightSingle.map encodeRightClickPixel
  Click := a.Click.map encodeLeftClickPixel
  Drag := a.Drag.map encodeDrag
  move_mouse := a.move_mouse.map encodeMoveTo
  scroll_up := a.scroll_up.map encodeScrollUp
  scroll_down := a.scroll_down.map encodeScrollDown
  record_info := a.record_info.map encodeRecord
  wait := a.wait.map encodeNoParams

/-- The `ActionItem` whose only populated field is a default `wait`. -/
def waitOnlyItem : ActionItem := { wait := some NoParamsAction.mk }

/-! ### Input synthesizer event traces (src/mac/actions.py) -/

/-- Mouse buttons handled by `_click_invisible`. -/
inductive MButton where
  | left
  | right
deriving DecidableEq

/-- One step performed by the synthesizer, in emission order.
`spawnHighlight` is the fire-and-forget visual affordance task;
`capturePos` is the read of the current pointer position;
`sleep` is an explicit suspension of the given duration in seconds;
the remaining constructors are the posted Quartz events (coordinates in
absolute pixels; `dragged` carries the event timestamp). -/
inductive Ev where
  | spawnHighlight (x y : ℚ)
  | capturePos
  | mouseMoved (x y : ℚ)
  | sleep (d : ℚ)
  | buttonDown (x y : ℚ) (b : MButton)
  | buttonUp (x y : ℚ) (b : MButton)
  | dragged (x y ts : ℚ)
  | scrollWheel (dir : ℤ)
  | warpCursor (x y : ℚ)
deriving DecidableEq

/-- The coordinate computation inlined identically in `left_click_pixel`
(lines 193-198), `right_click_pixel` (lines 207-212) and `move_to`
(lines 226-231): when BOTH components exceed 1 the pair is scaled by
`/1000 * screen_dimension`, otherwise each component is multiplied by the
screen dimension directly. -/
def resolve_position (p : ℚ × ℚ) (w h : ℚ) : ℚ × ℚ :=
  if 1 < p.1 ∧ 1 < p.2 then (p.1 / 1000 * w, p.2 / 1000 * h)
  else (p.1 * w, p.2 * h)

/-- The coordinate computation of `_scroll_invisible_at_position`
(lines 177-181): unconditionally `value/1000 * screen_dimension`. -/
def scrollAtPosResolve (p : ℚ × ℚ) (w h : ℚ) : ℚ × ℚ :=
  (p.1 / 1000 * w, p.2 / 1000 * h)

/-- Trace of `_click_invisible` (lines 90-122): spawn the highlight task,
capture the old pointer position, post a mouse-moved event at the target,
sleep 0.03 s, post button-down, post button-up.  Nothing is posted at the
captured old position. -/
def click_invisible (x y : ℚ) (b : MButton) : List Ev :=
  [Ev.spawnHighlight x y, Ev.capturePos, Ev.mouseMoved x y,
   Ev.sleep (3 / 100), Ev.buttonDown x y b, Ev.buttonUp x y b]

/-- Trace of `left_click_pixel` (lines 190-202). -/
def left_click_pixel (p : ℚ × ℚ) (w h : ℚ) : List Ev :=
  let a := resolve_position p w h
  click_invisible a.1 a.2 MButton.left

/-- Trace of `right_click_pixel` (lines 204-216). -/
def right_click_pixel (p : ℚ × ℚ) (w h : ℚ) : List Ev :=
  let a := resolve_position p w h
  click_invisible a.1 a.2 MButton.right

/-- Trace of `move_to` (lines 218-239): a single mouse-moved event at the
resolved position. -/
def move_to (p : ℚ × ℚ) (w h : ℚ) : List Ev :=
  let a := resolve_position p w h
  [Ev.mouseMoved a.1 a.2]

/-- Trace of `_drag_invisible` (lines 124-155): button-down at the start,
then for `i = 1..steps` a dragged event at the interpolated point with the
current clock as timestamp followed by a sleep of `duration/steps`, then
button-up at the end.  The clock starts at `t0` and advances by each
sleep, so the i-th dragged event is stamped `t0 + (i-1)*(duration/steps)`. -/
def drag_invisible (x1 y1 x2 y2 : ℚ) (duration : ℚ) (steps : ℕ) (t0 : ℚ) : List Ev :=
  let stepT := duration / (steps : ℚ)
  Ev.buttonDown x1 y1 MButton.left ::
    ((List.range steps).flatMap fun k =>
      [Ev.dragged (x1 + (x2 - x1) * ((k : ℚ) + 1) / (steps : ℚ))
                  (y1 + (y2 - y1) * ((k : ℚ) + 1) / (steps : ℚ))
                  (t0 + (k : ℚ) * stepT),
       Ev.sleep stepT]) ++
    [Ev.buttonUp x2 y2 MButton.left]

/-- Trace of `drag_pixel` (lines 242-260), with the default duration 0.5 s
and 60 steps of `_drag_invisible`: the `/1000` scaling applies only when
ALL FOUR coordinates exceed 1, otherwise every coordinate is multiplied by
its screen dimension. -/
def drag_pixel (s e : ℚ × ℚ) (w h t0 : ℚ) : List Ev :=
  if 1 < s.1 ∧ 1 < s.2 ∧ 1 < e.1 ∧ 1 < e.2 then
    drag_invisible (s.1 / 1000 * w) (s.2 / 1000 * h)
                   (e.1 / 1000 * w) (e.2 / 1000 * h) (1 / 2) 60 t0
  else
    drag_invisible (s.1 * w) (s.2 * h) (e.1 * w) (e.2 * h) (1 / 2) 60 t0

/-- The loop of `_scroll_invisible` (lines 158-169): iterate the loop
index `i` over `range (abs lines)`; each iteration posts one single-line
scroll-wheel event in direction `dir` and sleeps 0.003 s, and the loop
breaks after the iteration with `i = 25`.  `k` is the number of remaining
iterations. -/
def scrollLoop (dir : ℤ) : ℕ → ℕ → List Ev
  | 0, _ => []
  | k + 1, i =>
    Ev.scrollWheel dir :: Ev.sleep (3 / 1000) ::
      (if i = 25 then [] else scrollLoop dir k (i + 1))

/-- Trace of `_scroll_invisible` (lines 157-169): direction is `1` for
positive `lines` and `-1` otherwise; the loop runs over `range (abs lines)`
with the hard break after index 25. -/
def scroll_invisible (lines : ℤ) : List Ev :=
  scrollLoop (if 0 < lines then 1 else -1) lines.natAbs 0

/-- Trace of `scroll_up` (lines 307-316): clamp amounts above 25 down to
25, then scroll by the (positive) clamped amount. -/
def scroll_up (amount : ℤ) : List Ev :=
  scroll_invisible (if 25 < amount then 25 else amount)

/-- Trace of `scroll_down` (lines 318-327): clamp amounts above 25 down to
25, then scroll by the negated clamped amount. -/
def scroll_down (amount : ℤ) : List Ev :=
  scroll_invisible (-(if 25 < amount then 25 else amount))

/-- Trace of `_scroll_invisible_at_position` (lines 171-184): warp the
cursor to `(x/1000*w, y/1000*h)`, then scroll; nothing is posted
afterwards (despite the docstring, the prior position is not restored). -/
def scroll_invisible_at_position (p : ℚ × ℚ) (w h : ℚ) (lines : ℤ) : List Ev :=
  Ev.warpCursor (scrollAtPosResolve p w h).1 (scrollAtPosResolve p w h).2 ::
    scroll_invisible lines

/-! ### Trace observations -/

/-- Whether an event is a posted synthetic mouse input event
(mouse-moved, button-down or button-up). -/
def isMouseInput : Ev → Bool
  | .mouseMoved _ _ => true
  | .buttonDown _ _ _ => true
  | .buttonUp _ _ _ => true
  | _ => false

/-- Whether an event is a single-line scroll-wheel event. -/
def isScrollTick : Ev → Bool
  | .scrollWheel _ => true
  | _ => false

/-- Whether an event is a dragged event. -/
def isDragged : Ev → Bool
  | .dragged _ _ _ => true
  | _ => false

/-- Whether an event relocates the pointer (a real warp or a posted
mouse-moved event). -/
def isCursorRelocation : Ev → Bool
  | .warpCursor _ _ => true
  | .mouseMoved _ _ => true
  | _ => false

/-- The posted synthetic mouse input events of a trace, in order. -/
def postedMouseEvents (t : List Ev) : List Ev := t.filter isMouseInput

/-- The number of single-line scroll-wheel events in a trace. -/
def scrollTicks (t : List Ev) : ℕ := (t.filter isScrollTick).length

/-- The dragged events of a trace, in order. -/
def draggedEvents (t : List Ev) : List Ev := t.filter isDragged

/-- The timestamp of a dragged event (0 for other events). -/
def tsOf : Ev → ℚ
  | .dragged _ _ ts => ts
  | _ => 0

/-! ### Action executor / dispatcher -/

/-- Modelled from the spec: the typed action instances dispatched by the
executor; the `Controller` dispatcher (src/controller/service.py) is not
under `src/`.  Only the kinds whose synthesizers are embedded above are
included. -/
inductive ActionInstance where
  | left_click (pos : ℚ × ℚ)
  | right_click (pos : ℚ × ℚ)
  | move_pointer (pos : ℚ × ℚ)
  | drag (s e : ℚ × ℚ)
  | wait
  | done
deriving DecidableEq

/-- Per-action outcome reported back to the caller: the kind and a
success flag. -/
structure ExecutionResult where
  kind : String
  success : Bool
deriving DecidableEq

def ActionInstance.kindName : ActionInstance → String
  | .left_click _ => "left_click"
  | .right_click _ => "right_click"
  | .move_pointer _ => "move_pointer"
  | .drag _ _ => "drag"
  | .wait => "wait"
  | .done => "done"

/-- The synthesizer trace of one action instance on a `w × h` screen
(`wait` and `done` post no input events). -/
def runAction (w h t0 : ℚ) : ActionInstance → List Ev
  | .left_click p => left_click_pixel p w h
  | .right_click p => right_click_pixel p w h
  | .move_pointer p => move_to p w h
  | .drag s e => drag_pixel s e w h t0
  | .wait => []
  | .done => []

/-- Modelled from the spec: `execute` (spec section 4.6) walks the batch
strictly in order, invokes the matching synthesizer and records a
per-action result; the embedded synthesizers complete and report success
unconditionally (the source actions return `True`), and one action's
outcome never cancels the rest of the batch. -/
def execute (batch : List ActionInstance) (w h t0 : ℚ) :
    List (ExecutionResult × List Ev) :=
  batch.map fun a => (⟨a.kindName, true⟩, runAction w h t0 a)

/-! ### Helper lemmas -/

theorem getLast?_cons_append_singleton {α : Type} (a b : α) (l : List α) :
    (a :: (l ++ [b])).getLast? = some b := by
  rw [show a :: (l ++ [b]) = (a :: l) ++ [b] from rfl]
  rw [List.getLast?_concat]

theorem drag_invisible_getLast (x1 y1 x2 y2 d : ℚ) (n : ℕ) (t0 : ℚ) :
    (drag_invisible x1 y1 x2 y2 d n t0).getLast? =
      some (Ev.buttonUp x2 y2 MButton.left) := by
  rw [drag_invisible]
  exact getLast?_cons_append_singleton _ _ _

theorem filter_flatMap_pairs {α : Type} (l : List α) (f g : α → Ev)
    (hf : ∀ a, isDragged (f a) = true) (hg : ∀ a, isDragged (g a) = false) :
    (l.flatMap fun a => [f a, g a]).filter isDragged = l.map f := by
  induction l with
  | nil => rfl
  | cons a l ih =>
    simp only [List.flatMap_cons, List.filter_append, List.map_cons]
    rw [show ([f a, g a]).filter isDragged = [f a] by
      simp [List.filter, hf a, hg a]]
    rw [ih]
    rfl

theorem draggedEvents_drag_invisible (x1 y1 x2 y2 d : ℚ) (n : ℕ) (t0 : ℚ) :
    draggedEvents (drag_invisible x1 y1 x2 y2 d n t0) =
      (List.range n).map (fun (k : ℕ) =>
        Ev.dragged (x1 + (x2 - x1) * ((k : ℚ) + 1) / (n : ℚ))
                   (y1 + (y2 - y1) * ((k : ℚ) + 1) / (n : ℚ))
                   (t0 + (k : ℚ) * (d / (n : ℚ)))) := by
  rw [draggedEvents, drag_invisible]
  rw [List.filter_append]
  rw [List.filter_cons_of_neg (by simp [isDragged])]
  rw [show List.filter isDragged [Ev.buttonUp x2 y2 MButton.left] = [] from rfl]
  rw [List.append_nil]
  exact filter_flatMap_pairs _ _ _ (fun a => rfl) (fun a => rfl)

theorem scrollLoop_tick_count (dir : ℤ) :
    ∀ (k i : ℕ), i ≤ 25 →
      ((scrollLoop dir k i).filter isScrollTick).length = min k (26 - i) := by
  intro k
  induction k with
  | zero => intro i _; simp [scrollLoop]
  | succ n ih =>
    intro i hi
    by_cases h25 : i = 25
    · subst h25
      simp only [scrollLoop, if_pos rfl]
      simp [List.filter, isScrollTick]
    · have hi' : i + 1 ≤ 25 := by omega
      simp only [scrollLoop, if_neg h25]
      rw [show ((Ev.scrollWheel dir :: Ev.sleep (3 / 1000) ::
          scrollLoop dir n (i + 1)).filter isScrollTick) =
          Ev.scrollWheel dir :: (scrollLoop dir n (i + 1)).filter isScrollTick from by
        simp [List.filter, isScrollTick]]
      rw [List.length_cons, ih (i + 1) hi']
      omega

theorem scrollLoop_no_relocation (dir : ℤ) :
    ∀ (k i : ℕ), (scrollLoop dir k i).filter isCursorRelocation = [] := by
  intro k
  induction k with
  | zero => intro i; rfl
  | succ n ih =>
    intro i
    by_cases h25 : i = 25
    · subst h25; simp [scrollLoop, List.filter, isCursorRelocation]
    · simp only [scrollLoop, if_neg h25]
      simp [List.filter, isCursorRelocation, ih]

/-! ### Claim theorems -/

/-- C1 (counterexample): the claim that a position with both components
above 1 is returned unchanged as absolute pixels is false: `(500, 500)` on
a 2000 x 1000 screen resolves to `(1000, 500)`, not `(500, 500)`. -/
theorem resolve_position_not_identity_above_one :
    resolve_position (500, 500) 2000 1000 = (1000, 500) ∧
    resolve_position (500, 500) 2000 1000 ≠ (500, 500) := by
  have hres : resolve_position (500, 500) 2000 1000 = (1000, 500) := by
    rw [resolve_position, if_pos (by norm_num)]
    norm_num [Prod.ext_iff]
  refine ⟨hres, ?_⟩
  rw [hres]
  norm_num [Prod.ext_iff]

/-- C1 (amended): for every position with both components strictly greater
than 1 and every screen size, the coordinate resolution of the positional
actions returns `(x/1000*W, y/1000*H)`: it treats the pair as
0-1000-normalized, not as absolute pixels. -/
theorem resolve_position_above_one_scales (p : ℚ × ℚ) (w h : ℚ)
    (hx : 1 < p.1) (hy : 1 < p.2) :
    resolve_position p w h = (p.1 / 1000 * w, p.2 / 1000 * h) := by
  simp [resolve_position, hx, hy]

theorem resolve_position_above_one_scales_witness :
    resolve_position (500, 500) 2000 1000 =
      (500 / 1000 * 2000, 500 / 1000 * 1000) :=
  resolve_position_above_one_scales (500, 500) 2000 1000 (by norm_num) (by norm_num)

/-- C2 (counterexample): the claim that a position with both components in
`[0,1]` resolves to `(x/1000*W, y/1000*H)` is false: `(1/2, 1/2)` on a
1000 x 1000 screen resolves to `(500, 500)`, not `(1/2, 1/2)`. -/
theorem resolve_position_unit_square_not_thousandth :
    resolve_position (1 / 2, 1 / 2) 1000 1000 = (500, 500) ∧
    resolve_position (1 / 2, 1 / 2) 1000 1000 ≠
      ((1 / 2) / 1000 * 1000, (1 / 2) / 1000 * 1000) := by
  have hres : resolve_position (1 / 2, 1 / 2) 1000 1000 = (500, 500) := by
    rw [resolve_position, if_neg (by norm_num)]
    norm_num [Prod.ext_iff]
  refine ⟨hres, ?_⟩
  rw [hres]
  norm_num [Prod.ext_iff]

/-- C2 (amended): for every position with both components in `[0, 1]` and
every screen size, the coordinate resolution of the positional actions
returns `(x*W, y*H)`: it treats the components as fractions of the screen,
without the division by 1000. -/
theorem resolve_position_unit_square_scales (p : ℚ × ℚ) (w h : ℚ)
    (_hx0 : 0 ≤ p.1) (hx1 : p.1 ≤ 1) (_hy0 : 0 ≤ p.2) (_hy1 : p.2 ≤ 1) :
    resolve_position p w h = (p.1 * w, p.2 * h) := by
  rw [resolve_position, if_neg]
  rintro ⟨h1, -⟩
  exact absurd h1 (not_lt.mpr hx1)

theorem resolve_position_unit_square_scales_witness :
    resolve_position (1 / 2, 1 / 2) 1000 1000 =
      ((1 / 2) * 1000, (1 / 2) * 1000) :=
  resolve_position_unit_square_scales (1 / 2, 1 / 2) 1000 1000
    (by norm_num) (by norm_num) (by norm_num) (by norm_num)

/-- C3 (code falsification): a batch entry that populates BOTH `done` and
`wait` validates successfully into an `ActionItem` with two populated kind
fields; no `AmbiguousAction` failure occurs, contradicting the model's own
docstring that exactly one field must be populated. -/
theorem decode_accepts_two_populated_kinds :
    decodeActionItem { done := some (JVal.obj []), wait := some (JVal.obj []) } =
      some { done := some NoParamsAction.mk, wait := some NoParamsAction.mk } ∧
    ActionItem.populatedCount
      { done := some NoParamsAction.mk, wait := some NoParamsAction.mk } = 2 := by
  constructor <;> rfl

/-- C4: the batch of a left click at `(500, 500)` followed by `wait`, on a
2000 x 1000 screen, resolves the click to absolute pixel `(1000, 500)`
(every posted mouse event of the click is at that pixel) and yields two
successful results in order. -/
theorem click_wait_batch_scenario :
    resolve_position (500, 500) 2000 1000 = (1000, 500) ∧
    postedMouseEvents (left_click_pixel (500, 500) 2000 1000) =
      [Ev.mouseMoved 1000 500, Ev.buttonDown 1000 500 MButton.left,
       Ev.buttonUp 1000 500 MButton.left] ∧
    (execute [ActionInstance.left_click (500, 500), ActionInstance.wait]
        2000 1000 0).map Prod.fst =
      [⟨"left_click", true⟩, ⟨"wait", true⟩] := by
  have hres : resolve_position (500, 500) 2000 1000 = (1000, 500) := by
    rw [resolve_position, if_pos (by norm_num)]
    norm_num [Prod.ext_iff]
  refine ⟨hres, ?_, rfl⟩
  rw [show left_click_pixel (500, 500) 2000 1000 =
      click_invisible 1000 500 MButton.left from by
    simp only [left_click_pixel, hres]]
  rfl

/-- C5 (counterexample): the drag from `(0, 0)` to `(1000, 1000)` on a
1000 x 1000 screen does NOT end with button-up at pixel `(1000, 1000)`:
since the start components are not above 1, the else-branch multiplies all
coordinates by the screen dimension, and the button-up lands at
`(1000000, 1000000)`. -/
theorem drag_scenario_endpoint_counterexample :
    (drag_pixel (0, 0) (1000, 1000) 1000 1000 0).getLast? =
      some (Ev.buttonUp 1000000 1000000 MButton.left) ∧
    Ev.buttonUp (1000000 : ℚ) 1000000 MButton.left ≠
      Ev.buttonUp 1000 1000 MButton.left := by
  constructor
  · rw [show drag_pixel (0, 0) (1000, 1000) 1000 1000 0 =
        drag_invisible 0 0 1000000 1000000 (1 / 2) 60 0 from by
      rw [drag_pixel, if_neg (by norm_num)]; norm_num]
    exact drag_invisible_getLast 0 0 1000000 1000000 (1 / 2) 60 0
  · decide

/-- C5 (amended): the drag from `(0, 0)` to `(1000, 1000)` on a
1000 x 1000 screen with default steps and duration emits button-down at
pixel `(0, 0)`, then 60 intermediate drag events with monotonically
increasing timestamps, then button-up at pixel `(1000000, 1000000)` (the
else-branch multiplies the raw coordinates by the screen dimensions). -/
theorem drag_scenario_trace (t0 : ℚ) :
    (drag_pixel (0, 0) (1000, 1000) 1000 1000 t0).head? =
      some (Ev.buttonDown 0 0 MButton.left) ∧
    (draggedEvents (drag_pixel (0, 0) (1000, 1000) 1000 1000 t0)).length = 60 ∧
    List.Pairwise (fun a b => tsOf a < tsOf b)
      (draggedEvents (drag_pixel (0, 0) (1000, 1000) 1000 1000 t0)) ∧
    (drag_pixel (0, 0) (1000, 1000) 1000 1000 t0).getLast? =
      some (Ev.buttonUp 1000000 1000000 MButton.left) := by
  have hT : drag_pixel (0, 0) (1000, 1000) 1000 1000 t0 =
      drag_invisible 0 0 1000000 1000000 (1 / 2) 60 t0 := by
    rw [drag_pixel, if_neg (by norm_num)]; norm_num
  rw [hT, draggedEvents_drag_invisible]
  refine ⟨rfl, by simp, ?_, drag_invisible_getLast 0 0 1000000 1000000 (1 / 2) 60 t0⟩
  rw [List.pairwise_map]
  refine List.Pairwise.imp ?_ (List.pairwise_lt_range 60)
  intro a b hab
  simp only [tsOf]
  have hab' : (a : ℚ) < (b : ℚ) := by exact_mod_cast hab
  have hpos : (0 : ℚ) < 1 / 2 / ((60 : ℕ) : ℚ) := by norm_num
  exact add_lt_add_left (mul_lt_mul_of_pos_right hab' hpos) t0

/-- C6: for every requested scroll amount greater than 25, `scroll_up` and
`scroll_down` clamp the magnitude to 25 and post exactly 25 single-line
scroll-wheel events in the requested direction. -/
theorem scroll_clamp_to_25 (a : ℤ) (h : 25 < a) :
    (scroll_up a).filter isScrollTick = List.replicate 25 (Ev.scrollWheel 1) ∧
    (scroll_down a).filter isScrollTick =
      List.replicate 25 (Ev.scrollWheel (-1)) := by
  rw [scroll_up, scroll_down, if_pos h]
  constructor <;> decide

theorem scroll_clamp_to_25_witness :
    (scroll_up 30).filter isScrollTick = List.replicate 25 (Ev.scrollWheel 1) ∧
    (scroll_down 30).filter isScrollTick =
      List.replicate 25 (Ev.scrollWheel (-1)) :=
  scroll_clamp_to_25 30 (by decide)

/-- C7: a batch entry giving `wait` as an empty string, null, or the empty
object validates into the `ActionItem` whose only populated field is a
default no-parameter `wait`; its canonical serialized form is the empty
object, and re-decoding that form yields the same instance. -/
theorem wait_decode_lenient_idempotent :
    decodeActionItem { wait := some (JVal.str "") } = some waitOnlyItem ∧
    decodeActionItem { wait := some JVal.null } = some waitOnlyItem ∧
    decodeActionItem { wait := some (JVal.obj []) } = some waitOnlyItem ∧
    serializeActionItem waitOnlyItem = { wait := some (JVal.obj []) } ∧
    decodeActionItem (serializeActionItem waitOnlyItem) = some waitOnlyItem := by
  refine ⟨rfl, rfl, rfl, rfl, rfl⟩

/-- C8 (counterexample): the position resolution of scroll-at-position is
NOT the same function as the click path's coordinate resolution: at
`(1, 1)` on a 1000 x 1000 screen the scroll path yields `(1, 1)` while the
click path yields `(1000, 1000)`. -/
theorem scroll_resolve_differs_counterexample :
    scrollAtPosResolve (1, 1) 1000 1000 ≠ resolve_position (1, 1) 1000 1000 := by
  have h1 : scrollAtPosResolve (1, 1) 1000 1000 = (1, 1) := by
    rw [scrollAtPosResolve]
    norm_num [Prod.ext_iff]
  have h2 : resolve_position (1, 1) 1000 1000 = (1000, 1000) := by
    rw [resolve_position, if_neg (by norm_num)]
    norm_num [Prod.ext_iff]
  rw [h1, h2]
  norm_num [Prod.ext_iff]

/-- C8 (amended): scroll-at-position always computes
`(x/1000*W, y/1000*H)`; this agrees with the click path's resolution
exactly on positions with both components above 1, and after the warp to
the target the scroll trace posts no further cursor relocation (the prior
pointer position is never restored). -/
theorem scroll_resolve_matches_click_above_one :
    (∀ (p : ℚ × ℚ) (w h : ℚ), 1 < p.1 → 1 < p.2 →
        scrollAtPosResolve p w h = resolve_position p w h) ∧
    (∀ (p : ℚ × ℚ) (w h : ℚ) (lines : ℤ),
        (scroll_invisible_at_position p w h lines).filter isCursorRelocation =
          [Ev.warpCursor (scrollAtPosResolve p w h).1
            (scrollAtPosResolve p w h).2]) := by
  constructor
  · intro p w h hx hy
    simp [scrollAtPosResolve, resolve_position, hx, hy]
  · intro p w h lines
    rw [scroll_invisible_at_position]
    rw [show ∀ (t : List Ev) (x y : ℚ),
        (Ev.warpCursor x y :: t).filter isCursorRelocation =
          Ev.warpCursor x y :: t.filter isCursorRelocation from by
      intro t x y; simp [List.filter, isCursorRelocation]]
    rw [scroll_invisible, scrollLoop_no_relocation]

theorem scroll_resolve_matches_click_above_one_witness :
    scrollAtPosResolve (500, 500) 2000 1000 =
      resolve_position (500, 500) 2000 1000 :=
  scroll_resolve_matches_click_above_one.1 (500, 500) 2000 1000
    (by norm_num) (by norm_num)

/-- C9: for every target and button, the click captures the pointer
position and posts exactly one mouse-moved, one button-down and one
button-up event, all at the target; the settle sleep of 0.03 s sits
between the move and the button-down, and the only cursor relocation in
the whole trace is the move to the target, so the captured pre-click
position is never restored. -/
theorem click_trace_events (x y : ℚ) (b : MButton) :
    postedMouseEvents (click_invisible x y b) =
      [Ev.mouseMoved x y, Ev.buttonDown x y b, Ev.buttonUp x y b] ∧
    [Ev.mouseMoved x y, Ev.sleep (3 / 100), Ev.buttonDown x y b] <:+:
      click_invisible x y b ∧
    (click_invisible x y b).filter isCursorRelocation = [Ev.mouseMoved x y] ∧
    Ev.capturePos ∈ click_invisible x y b := by
  refine ⟨rfl,
    ⟨[Ev.spawnHighlight x y, Ev.capturePos], [Ev.buttonUp x y b], rfl⟩,
    rfl, ?_⟩
  simp [click_invisible]

/-- C10: for every integer `lines`, the internal scroll loop posts exactly
`min |lines| 26` single-line scroll-wheel events: the hard loop-index
cutoff breaks only after the event at index 25 has been posted. -/
theorem scroll_invisible_tick_count (lines : ℤ) :
    scrollTicks (scroll_invisible lines) = min lines.natAbs 26 := by
  rw [scroll_invisible, scrollTicks]
  rw [scrollLoop_tick_count (if 0 < lines then 1 else -1) lines.natAbs 0
    (by omega)]

end TuriX
